import Mathlib

/-!
Shallow embedding of `src/privacy/server/Address.cpp` (namespace `libzcash`):
the Sprout (Scheme A) and Sapling (Scheme B) key/address derivation
hierarchies and the variant validity layer.

Modelling conventions:
* `uint256` / `uint252` are modelled as `Nat` (no arithmetic overflow is
  exercised by any operation in this file).
* External collaborators (PRF primitives, `librustzcash` elliptic-curve
  routines, note-encryption keypair generation) are not part of the source;
  they appear as explicit function parameters of the definitions that call
  them, so every theorem quantifies over all possible collaborators.
* A non-void C++ function whose body executes no return statement yields no
  defined value; it is embedded as returning `Option` with result `none`.
* Functions that exist in the source only as commented-out code are embedded
  exactly as that commented text reads.
-/

namespace libzcash

/-- Model of `uint256`: a 256-bit value. -/
abbrev uint256 := Nat

/-- Model of `uint252`: a 252-bit value. -/
abbrev uint252 := Nat

/-- Model of `diversifier_t`: an 11-byte array. -/
abbrev diversifier_t := {l : List Nat // l.length = 11}

/-! ## Scheme A (Sprout) data model -/

/-- `SproutSpendingKey`: the 252-bit root secret of Scheme A. -/
structure SproutSpendingKey where
  key : uint252
deriving DecidableEq

/-- `ReceivingKey`: a `uint256` secret used to decrypt incoming notes. -/
structure ReceivingKey where
  key : uint256
deriving DecidableEq

/-- `SproutViewingKey`: pair of the public identifier `a_pk` and the
receiving key `sk_enc`. -/
structure SproutViewingKey where
  a_pk : uint256
  sk_enc : ReceivingKey
deriving DecidableEq

/-- `SproutPaymentAddress`: pair (`a_pk`, `pk_enc`), the shared identifier. -/
structure SproutPaymentAddress where
  a_pk : uint256
  pk_enc : uint256
deriving DecidableEq

/-! ## Scheme A operations (`Address.cpp` lines 11-41) -/

/-- `SproutPaymentAddress::GetHash` (lines 11-15): the entire body
(serialize into a stream, hash it) is commented out, so this non-void
function executes no return statement and produces no defined digest;
embedded as `none`. -/
def SproutPaymentAddress.GetHash (_addr : SproutPaymentAddress) : Option uint256 :=
  none

/-- `ReceivingKey::pk_enc` (lines 17-21): the call
`ZCNoteEncryption::generate_pubkey(*this)` is commented out; the live body
declares `uint256 result;` and returns it. Modelled from the spec: the
`uint256` default constructor is outside this fragment; per the design
notes the disabled steps leave "placeholder zero values", so the
default-constructed `uint256` is the all-zero value `0`. -/
def ReceivingKey.pk_enc (_rk : ReceivingKey) : uint256 :=
  0

/-- `SproutViewingKey::address` (commented out, lines 23-25):
`SproutPaymentAddress(a_pk, sk_enc.pk_enc())`. -/
def SproutViewingKey.address (vk : SproutViewingKey) : SproutPaymentAddress :=
  ⟨vk.a_pk, vk.sk_enc.pk_enc⟩

/-- `SproutSpendingKey::receiving_key` (commented out, lines 27-29):
`ReceivingKey(ZCNoteEncryption::generate_privkey(*this))`, with the
note-encryption collaborator `generate_privkey` as a parameter. -/
def SproutSpendingKey.receiving_key (generate_privkey : uint252 → uint256)
    (s : SproutSpendingKey) : ReceivingKey :=
  ⟨generate_privkey s.key⟩

/-- `SproutSpendingKey::viewing_key` (commented out, lines 31-33):
`SproutViewingKey(PRF_addr_a_pk(*this), receiving_key())`, with the PRF
collaborator as a parameter. -/
def SproutSpendingKey.viewing_key (PRF_addr_a_pk generate_privkey : uint252 → uint256)
    (s : SproutSpendingKey) : SproutViewingKey :=
  ⟨PRF_addr_a_pk s.key, s.receiving_key generate_privkey⟩

/-- `SproutSpendingKey::address` (commented out, lines 39-41):
`viewing_key().address()`. -/
def SproutSpendingKey.address (PRF_addr_a_pk generate_privkey : uint252 → uint256)
    (s : SproutSpendingKey) : SproutPaymentAddress :=
  (s.viewing_key PRF_addr_a_pk generate_privkey).address

/-! ## Scheme B (Sapling) data model -/

/-- `SaplingSpendingKey`: the 256-bit seed of Scheme B. -/
structure SaplingSpendingKey where
  seed : uint256
deriving DecidableEq

/-- `SaplingExpandedSpendingKey`: the triple (`ask`, `nsk`, `ovk`). -/
structure SaplingExpandedSpendingKey where
  ask : uint256
  nsk : uint256
  ovk : uint256
deriving DecidableEq

/-- `SaplingFullViewingKey`: the triple (`ak`, `nk`, `ovk`). -/
structure SaplingFullViewingKey where
  ak : uint256
  nk : uint256
  ovk : uint256
deriving DecidableEq

/-- `SaplingIncomingViewingKey`: the scalar `ivk`. -/
structure SaplingIncomingViewingKey where
  ivk : uint256
deriving DecidableEq

/-- `SaplingPaymentAddress`: pair (`d`, `pk_d`). -/
structure SaplingPaymentAddress where
  d : diversifier_t
  pk_d : uint256
deriving DecidableEq

/-! ## Scheme B operations (`Address.cpp` lines 43-82) -/

/-- Modelled from the spec: the PRF module (`prf.h` is not part of the
fragment) provides one PRF expansion function applied with per-field
compile-time domain-separation tags; this is the tag bound to `PRF_ask`. -/
def prfTagAsk : Nat := 0

/-- Modelled from the spec: the domain-separation tag bound to `PRF_nsk`. -/
def prfTagNsk : Nat := 1

/-- Modelled from the spec: the domain-separation tag bound to `PRF_ovk`. -/
def prfTagOvk : Nat := 2

/-- Modelled from the spec: `PRF_ask(seed)` is the PRF expansion of the seed
at the `ask` domain-separation tag; the expansion function itself is an
external collaborator, passed as the parameter `prf_expand`. -/
def PRF_ask (prf_expand : uint256 → Nat → uint256) (seed : uint256) : uint256 :=
  prf_expand seed prfTagAsk

/-- Modelled from the spec: `PRF_nsk(seed)`, at the `nsk` tag. -/
def PRF_nsk (prf_expand : uint256 → Nat → uint256) (seed : uint256) : uint256 :=
  prf_expand seed prfTagNsk

/-- Modelled from the spec: `PRF_ovk(seed)`, at the `ovk` tag. -/
def PRF_ovk (prf_expand : uint256 → Nat → uint256) (seed : uint256) : uint256 :=
  prf_expand seed prfTagOvk

/-- `SaplingSpendingKey::expanded_spending_key` (commented out, lines 52-54):
`SaplingExpandedSpendingKey(PRF_ask(*this), PRF_nsk(*this), PRF_ovk(*this))`. -/
def SaplingSpendingKey.expanded_spending_key (prf_expand : uint256 → Nat → uint256)
    (s : SaplingSpendingKey) : SaplingExpandedSpendingKey :=
  ⟨PRF_ask prf_expand s.seed, PRF_nsk prf_expand s.seed, PRF_ovk prf_expand s.seed⟩

/-- `SaplingExpandedSpendingKey::full_viewing_key` (commented out, lines 44-50):
`ak` from `librustzcash_ask_to_ak(ask)`, `nk` from `librustzcash_nsk_to_nk(nsk)`,
`ovk` carried through; the two scalar-base-multiplication collaborators are
parameters. -/
def SaplingExpandedSpendingKey.full_viewing_key (ask_to_ak nsk_to_nk : uint256 → uint256)
    (e : SaplingExpandedSpendingKey) : SaplingFullViewingKey :=
  ⟨ask_to_ak e.ask, nsk_to_nk e.nsk, e.ovk⟩

/-- `SaplingSpendingKey::full_viewing_key` (commented out, lines 56-58):
`expanded_spending_key().full_viewing_key()`. -/
def SaplingSpendingKey.full_viewing_key (prf_expand : uint256 → Nat → uint256)
    (ask_to_ak nsk_to_nk : uint256 → uint256) (s : SaplingSpendingKey) :
    SaplingFullViewingKey :=
  (s.expanded_spending_key prf_expand).full_viewing_key ask_to_ak nsk_to_nk

/-- `SaplingFullViewingKey::in_viewing_key` (commented out, lines 60-64):
`ivk` from `librustzcash_crh_ivk(ak, nk)`; the hash-to-scalar collaborator is
the parameter `crh_ivk`. -/
def SaplingFullViewingKey.in_viewing_key (crh_ivk : uint256 → uint256 → uint256)
    (f : SaplingFullViewingKey) : SaplingIncomingViewingKey :=
  ⟨crh_ivk f.ak f.nk⟩

/-- `SaplingIncomingViewingKey::address` (commented out, lines 70-78): if
`librustzcash_check_diversifier(d)` holds, compute `pk_d` with
`librustzcash_ivk_to_pkd(ivk, d)` and return `SaplingPaymentAddress(d, pk_d)`,
else return `boost::none`; both EC collaborators are parameters. -/
def SaplingIncomingViewingKey.address (check_diversifier : diversifier_t → Bool)
    (ivk_to_pkd : uint256 → diversifier_t → uint256)
    (k : SaplingIncomingViewingKey) (d : diversifier_t) :
    Option SaplingPaymentAddress :=
  if check_diversifier d = true then some ⟨d, ivk_to_pkd k.ivk d⟩ else none

/-- Modelled from the spec: the bounded first-valid search behind
`default_diversifier` (whose definition is not part of the fragment).
`cand` enumerates the deterministic canonical candidate sequence; starting
from index `i`, return the first candidate passing the validity check within
`fuel` further candidates, or `none` when all of them fail. -/
def firstValidDiversifier (check : diversifier_t → Bool) (cand : Nat → diversifier_t) :
    Nat → Nat → Option diversifier_t
  | 0, _ => none
  | fuel + 1, i =>
      if check (cand i) = true then some (cand i)
      else firstValidDiversifier check cand fuel (i + 1)

/-- Modelled from the spec: `default_diversifier(sk)` (not part of the
fragment) searches a deterministic, canonical sequence of candidate
diversifiers derived from the spending key and yields the first one the EC
collaborator accepts, within a finite search bound; absent when no candidate
within the bound is accepted. The sequence is `cand s.seed 0`,
`cand s.seed 1`, ... with `cand` the derivation collaborator and `bound`
the search bound. -/
def default_diversifier (check : diversifier_t → Bool)
    (cand : uint256 → Nat → diversifier_t) (bound : Nat)
    (s : SaplingSpendingKey) : Option diversifier_t :=
  firstValidDiversifier check (cand s.seed) bound 0

/-- `SaplingSpendingKey::default_address` (commented out, lines 80-82):
`full_viewing_key().in_viewing_key().address(default_diversifier(*this))`,
propagating absence of a default diversifier as an absent address. -/
def SaplingSpendingKey.default_address (prf_expand : uint256 → Nat → uint256)
    (ask_to_ak nsk_to_nk : uint256 → uint256)
    (crh_ivk : uint256 → uint256 → uint256)
    (check_diversifier : diversifier_t → Bool)
    (ivk_to_pkd : uint256 → diversifier_t → uint256)
    (cand : uint256 → Nat → diversifier_t) (bound : Nat)
    (s : SaplingSpendingKey) : Option SaplingPaymentAddress :=
  match default_diversifier check_diversifier cand bound s with
  | none => none
  | some d =>
      ((s.full_viewing_key prf_expand ask_to_ak nsk_to_nk).in_viewing_key
        crh_ivk).address check_diversifier ivk_to_pkd d

end libzcash

/-! ## Variant / validity layer (`Address.cpp` lines 87-97) -/

/-- Tagged union over payment addresses: `Invalid` (discriminant 0, the
default), a populated Scheme A address, or a populated Scheme B address. -/
inductive AnyPaymentAddress where
  | invalid : AnyPaymentAddress
  | sprout (a : libzcash.SproutPaymentAddress) : AnyPaymentAddress
  | sapling (a : libzcash.SaplingPaymentAddress) : AnyPaymentAddress
deriving DecidableEq

/-- `which()` of the payment-address variant: the discriminant index,
`0` for the invalid (default) case. -/
def AnyPaymentAddress.which : AnyPaymentAddress → Nat
  | .invalid => 0
  | .sprout _ => 1
  | .sapling _ => 2

/-- Tagged union over viewing keys. -/
inductive AnyViewingKey where
  | invalid : AnyViewingKey
  | sprout (vk : libzcash.SproutViewingKey) : AnyViewingKey
  | sapling (vk : libzcash.SaplingFullViewingKey) : AnyViewingKey
deriving DecidableEq

/-- `which()` of the viewing-key variant. -/
def AnyViewingKey.which : AnyViewingKey → Nat
  | .invalid => 0
  | .sprout _ => 1
  | .sapling _ => 2

/-- Tagged union over spending keys. -/
inductive AnySpendingKey where
  | invalid : AnySpendingKey
  | sprout (k : libzcash.SproutSpendingKey) : AnySpendingKey
  | sapling (k : libzcash.SaplingSpendingKey) : AnySpendingKey
deriving DecidableEq

/-- `which()` of the spending-key variant. -/
def AnySpendingKey.which : AnySpendingKey → Nat
  | .invalid => 0
  | .sprout _ => 1
  | .sapling _ => 2

/-- `IsValidPaymentAddress` (commented out, lines 87-89):
`zaddr.which() != 0`. -/
def IsValidPaymentAddress (zaddr : AnyPaymentAddress) : Bool :=
  zaddr.which != 0

/-- `IsValidViewingKey` (commented out, lines 91-93): `vk.which() != 0`. -/
def IsValidViewingKey (vk : AnyViewingKey) : Bool :=
  vk.which != 0

/-- `IsValidSpendingKey` (commented out, lines 95-97): `zkey.which() != 0`. -/
def IsValidSpendingKey (zkey : AnySpendingKey) : Bool :=
  zkey.which != 0

/-! ## Claim theorems -/

namespace libzcash

/-- C1: the claim says `pk_enc(rk)` equals `generatePublicKey(rk)` and is a
non-constant deterministic function of the receiving-key secret. The live
code has the `generate_pubkey` call commented out and returns the
default-constructed (all-zero) `uint256` for every receiving key, so
`pk_enc` is the constant zero function: the claim fails on the code. -/
theorem pk_enc_constant_zero :
    ∀ rk : ReceivingKey, rk.pk_enc = 0 :=
  fun _ => rfl

/-- C2: the claim says `GetHash` returns the 256-bit digest of the canonical
serialization of the address. The body of `GetHash` is entirely commented
out, so no return statement executes and no digest at all is produced;
evaluated here at the concrete address with both fields zero. -/
theorem getHash_no_digest_at_zero_address :
    SproutPaymentAddress.GetHash ⟨0, 0⟩ = none :=
  rfl

/-- C5: Scheme A path equivalence: `address(s)` equals
`viewingKey(s).address()` bit-for-bit, for every spending key and every
choice of the PRF and note-encryption collaborators. -/
theorem sprout_address_path_equivalence :
    ∀ (PRF_addr_a_pk generate_privkey : uint252 → uint256) (s : SproutSpendingKey),
      s.address PRF_addr_a_pk generate_privkey =
        (s.viewing_key PRF_addr_a_pk generate_privkey).address :=
  fun _ _ _ => rfl

/-- C6: Scheme B path equivalence: `fullViewingKey(s)` equals
`fullViewingKey(expand(s))`, for every spending key and every choice of the
PRF-expansion and scalar-base-multiplication collaborators. -/
theorem sapling_fvk_path_equivalence :
    ∀ (prf_expand : uint256 → Nat → uint256) (ask_to_ak nsk_to_nk : uint256 → uint256)
      (s : SaplingSpendingKey),
      s.full_viewing_key prf_expand ask_to_ak nsk_to_nk =
        (s.expanded_spending_key prf_expand).full_viewing_key ask_to_ak nsk_to_nk :=
  fun _ _ _ _ => rfl

/-- C9: the claim says every derivation operation except `random()` is total
with well-defined output. `GetHash` (one of the two live operations the
claim cites) executes no return statement, so its output is not defined;
evaluated here at the concrete address `(a_pk, pk_enc) = (3, 4)`. -/
theorem getHash_not_total :
    SproutPaymentAddress.GetHash ⟨3, 4⟩ = none :=
  rfl

/-- C10: every call to `SproutPaymentAddress::GetHash` falls off the end of
the non-void body without executing a return statement — the whole body is
disabled — so no defined digest value is ever produced. -/
theorem getHash_always_none :
    ∀ addr : SproutPaymentAddress, addr.GetHash = none :=
  fun _ => rfl

/-- C3: diversifier gating: for every choice of the EC collaborators, every
incoming viewing key and every diversifier, `address(ivk, d)` is present iff
`checkDiversifier(d)` is true; when present it is exactly
`(d, ivk_to_pkd ivk d)`, and when the diversifier is invalid the result is
the absent value, not an error. -/
theorem sapling_address_diversifier_gating :
    ∀ (check_diversifier : diversifier_t → Bool)
      (ivk_to_pkd : uint256 → diversifier_t → uint256)
      (k : SaplingIncomingViewingKey) (d : diversifier_t),
      ((k.address check_diversifier ivk_to_pkd d).isSome ↔ check_diversifier d = true)
      ∧ (check_diversifier d = true →
          k.address check_diversifier ivk_to_pkd d = some ⟨d, ivk_to_pkd k.ivk d⟩)
      ∧ (check_diversifier d = false →
          k.address check_diversifier ivk_to_pkd d = none) := by
  intro check_diversifier ivk_to_pkd k d
  unfold SaplingIncomingViewingKey.address
  by_cases h : check_diversifier d = true
  · simp [h]
  · simp [h]

/-- A concrete diversifier validity check used to exercise the theorems:
accepts exactly the diversifiers whose first byte is `1`. -/
def checkHeadOne (d : diversifier_t) : Bool :=
  d.val.head? == some 1

/-- A concrete canonical candidate sequence used to exercise the theorems:
candidate `i` for seed `s` is the 11-byte string `i, s, 0, ..., 0`. -/
def candSeq (s : uint256) (i : Nat) : diversifier_t :=
  ⟨i :: s :: List.replicate 9 0, by simp⟩

/-- A concrete `pk_d` collaborator used to exercise the theorems. -/
def pkdSum (ivk : uint256) (d : diversifier_t) : uint256 :=
  ivk + d.val.foldl (· + ·) 0

/-- Witness for C3: at the concrete check accepting first-byte-one
diversifiers, the address at a valid diversifier is present with the stated
components and the address at an invalid diversifier is absent. -/
theorem sapling_address_diversifier_gating_witness :
    (checkHeadOne (candSeq 0 1) = true ∧ checkHeadOne (candSeq 0 0) = false)
    ∧ SaplingIncomingViewingKey.address checkHeadOne pkdSum ⟨7⟩ (candSeq 0 1) =
        some ⟨candSeq 0 1, pkdSum 7 (candSeq 0 1)⟩
    ∧ SaplingIncomingViewingKey.address checkHeadOne pkdSum ⟨7⟩ (candSeq 0 0) = none :=
  ⟨⟨by decide, by decide⟩,
    (sapling_address_diversifier_gating checkHeadOne pkdSum ⟨7⟩ (candSeq 0 1)).2.1
      (by decide),
    (sapling_address_diversifier_gating checkHeadOne pkdSum ⟨7⟩ (candSeq 0 0)).2.2
      (by decide)⟩

/-- C7: `expand` performs exactly three PRF-expansion calls on the seed, one
per field, at pairwise distinct domain-separation tags (so no PRF output is
reused across fields); expansion is reproducible, and whenever the PRF does
not collide across the three tags at the all-zero seed — which any
pseudorandom collaborator satisfies — the three sub-secrets of
`expand(0)` are pairwise distinct. -/
theorem expanded_spending_key_domain_separation
    (prf_expand : uint256 → Nat → uint256)
    (h1 : prf_expand 0 prfTagAsk ≠ prf_expand 0 prfTagNsk)
    (h2 : prf_expand 0 prfTagAsk ≠ prf_expand 0 prfTagOvk)
    (h3 : prf_expand 0 prfTagNsk ≠ prf_expand 0 prfTagOvk) :
    (∀ s : SaplingSpendingKey,
        s.expanded_spending_key prf_expand =
          ⟨prf_expand s.seed prfTagAsk, prf_expand s.seed prfTagNsk,
            prf_expand s.seed prfTagOvk⟩)
    ∧ (prfTagAsk ≠ prfTagNsk ∧ prfTagAsk ≠ prfTagOvk ∧ prfTagNsk ≠ prfTagOvk)
    ∧ (∀ s t : SaplingSpendingKey, s = t →
        s.expanded_spending_key prf_expand = t.expanded_spending_key prf_expand)
    ∧ ((SaplingSpendingKey.expanded_spending_key prf_expand ⟨0⟩).ask ≠
          (SaplingSpendingKey.expanded_spending_key prf_expand ⟨0⟩).nsk
        ∧ (SaplingSpendingKey.expanded_spending_key prf_expand ⟨0⟩).ask ≠
          (SaplingSpendingKey.expanded_spending_key prf_expand ⟨0⟩).ovk
        ∧ (SaplingSpendingKey.expanded_spending_key prf_expand ⟨0⟩).nsk ≠
          (SaplingSpendingKey.expanded_spending_key prf_expand ⟨0⟩).ovk) := by
  refine ⟨fun s => rfl, ⟨by decide, by decide, by decide⟩,
    fun s t h => by rw [h], ?_, ?_, ?_⟩
  · exact h1
  · exact h2
  · exact h3

/-- A concrete PRF-expansion collaborator used to exercise the theorems. -/
def prfAdd (seed tag : uint256) : uint256 :=
  seed + tag

/-- Witness for C7: the additive collaborator does not collide across the
three tags at the all-zero seed, and the three sub-secrets of the expansion
of the all-zero seed under it are pairwise distinct. -/
theorem expanded_spending_key_domain_separation_witness :
    (prfAdd 0 prfTagAsk ≠ prfAdd 0 prfTagNsk
      ∧ prfAdd 0 prfTagAsk ≠ prfAdd 0 prfTagOvk
      ∧ prfAdd 0 prfTagNsk ≠ prfAdd 0 prfTagOvk)
    ∧ ((SaplingSpendingKey.expanded_spending_key prfAdd ⟨0⟩).ask ≠
          (SaplingSpendingKey.expanded_spending_key prfAdd ⟨0⟩).nsk
        ∧ (SaplingSpendingKey.expanded_spending_key prfAdd ⟨0⟩).ask ≠
          (SaplingSpendingKey.expanded_spending_key prfAdd ⟨0⟩).ovk
        ∧ (SaplingSpendingKey.expanded_spending_key prfAdd ⟨0⟩).nsk ≠
          (SaplingSpendingKey.expanded_spending_key prfAdd ⟨0⟩).ovk) :=
  ⟨⟨by decide, by decide, by decide⟩,
    (expanded_spending_key_domain_separation prfAdd (by decide) (by decide)
      (by decide)).2.2.2⟩

end libzcash

/-- C8: for each of the three variant types, the validity predicate is true
iff the discriminant is not the `Invalid` tag: it is false exactly on the
default `invalid` case and true on every populated Scheme A or Scheme B
value regardless of the scheme-specific contents. -/
theorem isValid_discriminant_only :
    (∀ p : AnyPaymentAddress, IsValidPaymentAddress p = true ↔ p ≠ AnyPaymentAddress.invalid)
    ∧ (∀ p : AnyPaymentAddress, IsValidPaymentAddress p = true ↔ p.which ≠ 0)
    ∧ IsValidPaymentAddress AnyPaymentAddress.invalid = false
    ∧ (∀ a, IsValidPaymentAddress (AnyPaymentAddress.sprout a) = true)
    ∧ (∀ a, IsValidPaymentAddress (AnyPaymentAddress.sapling a) = true)
    ∧ (∀ v : AnyViewingKey, IsValidViewingKey v = true ↔ v ≠ AnyViewingKey.invalid)
    ∧ (∀ v : AnyViewingKey, IsValidViewingKey v = true ↔ v.which ≠ 0)
    ∧ IsValidViewingKey AnyViewingKey.invalid = false
    ∧ (∀ vk, IsValidViewingKey (AnyViewingKey.sprout vk) = true)
    ∧ (∀ vk, IsValidViewingKey (AnyViewingKey.sapling vk) = true)
    ∧ (∀ k : AnySpendingKey, IsValidSpendingKey k = true ↔ k ≠ AnySpendingKey.invalid)
    ∧ (∀ k : AnySpendingKey, IsValidSpendingKey k = true ↔ k.which ≠ 0)
    ∧ IsValidSpendingKey AnySpendingKey.invalid = false
    ∧ (∀ k, IsValidSpendingKey (AnySpendingKey.sprout k) = true)
    ∧ (∀ k, IsValidSpendingKey (AnySpendingKey.sapling k) = true) := by
  refine ⟨?_, ?_, rfl, fun a => rfl, fun a => rfl,
    ?_, ?_, rfl, fun vk => rfl, fun vk => rfl,
    ?_, ?_, rfl, fun k => rfl, fun k => rfl⟩
  · intro p; cases p <;> simp [IsValidPaymentAddress, AnyPaymentAddress.which]
  · intro p; cases p <;> simp [IsValidPaymentAddress, AnyPaymentAddress.which]
  · intro v; cases v <;> simp [IsValidViewingKey, AnyViewingKey.which]
  · intro v; cases v <;> simp [IsValidViewingKey, AnyViewingKey.which]
  · intro k; cases k <;> simp [IsValidSpendingKey, AnySpendingKey.which]
  · intro k; cases k <;> simp [IsValidSpendingKey, AnySpendingKey.which]

namespace libzcash

/-- The bounded search returns no diversifier exactly when every candidate
within the remaining fuel fails the validity check. -/
theorem firstValidDiversifier_none_iff (check : diversifier_t → Bool)
    (cand : Nat → diversifier_t) :
    ∀ fuel i, firstValidDiversifier check cand fuel i = none ↔
      ∀ k, k < fuel → check (cand (i + k)) = false := by
  intro fuel
  induction fuel with
  | zero => intro i; simp [firstValidDiversifier]
  | succ n ih =>
    intro i
    by_cases hc : check (cand i) = true
    · simp only [firstValidDiversifier, if_pos hc]
      constructor
      · intro h; exact absurd h (by simp)
      · intro h
        have h0 := h 0 (Nat.succ_pos n)
        rw [Nat.add_zero, hc] at h0
        exact absurd h0 (by simp)
    · simp only [firstValidDiversifier, if_neg hc]
      rw [ih (i + 1)]
      rw [Bool.not_eq_true] at hc
      constructor
      · intro h k hk
        cases k with
        | zero => simpa using hc
        | succ m =>
          have e : i + (m + 1) = i + 1 + m := by omega
          rw [e]
          exact h m (by omega)
      · intro h k hk
        have hk1 := h (k + 1) (by omega)
        have e : i + (k + 1) = i + 1 + k := by omega
        rw [e] at hk1
        exact hk1

/-- A diversifier returned by the bounded search passes the validity check. -/
theorem firstValidDiversifier_some_check (check : diversifier_t → Bool)
    (cand : Nat → diversifier_t) :
    ∀ fuel i d, firstValidDiversifier check cand fuel i = some d → check d = true := by
  intro fuel
  induction fuel with
  | zero => intro i d h; exact absurd h (by simp [firstValidDiversifier])
  | succ n ih =>
    intro i d h
    by_cases hc : check (cand i) = true
    · simp only [firstValidDiversifier, if_pos hc] at h
      exact (Option.some.inj h) ▸ hc
    · simp only [firstValidDiversifier, if_neg hc] at h
      exact ih (i + 1) d h

/-- The bounded search returns exactly the first valid candidate: if
candidate `k` is valid, within fuel, and all earlier candidates fail, the
search yields candidate `k`. -/
theorem firstValidDiversifier_first (check : diversifier_t → Bool)
    (cand : Nat → diversifier_t) :
    ∀ fuel i k, k < fuel → check (cand (i + k)) = true →
      (∀ j, j < k → check (cand (i + j)) = false) →
      firstValidDiversifier check cand fuel i = some (cand (i + k)) := by
  intro fuel
  induction fuel with
  | zero => intro i k hk _ _; exact absurd hk (by omega)
  | succ n ih =>
    intro i k hk hck hmin
    cases k with
    | zero =>
      have hc : check (cand i) = true := by simpa using hck
      simp [firstValidDiversifier, hc]
    | succ m =>
      have hc0 : check (cand i) = false := by simpa using hmin 0 (by omega)
      have hcn : ¬check (cand i) = true := by simp [hc0]
      simp only [firstValidDiversifier, if_neg hcn]
      have e : i + (m + 1) = i + 1 + m := by omega
      rw [e] at hck ⊢
      refine ih (i + 1) m (by omega) hck ?_
      intro j hj
      have hj1 := hmin (j + 1) (by omega)
      have e2 : i + (j + 1) = i + 1 + j := by omega
      rw [e2] at hj1
      exact hj1

/-- C4: `defaultAddress(s)` walks the deterministic canonical candidate
sequence derived from the spending key and returns the address of the first
candidate accepted by the diversifier check; it is absent exactly when every
candidate within the search bound fails — in particular a failing first
candidate does not make it give up while the bound allows more. -/
theorem default_address_first_valid_candidate :
    ∀ (prf_expand : uint256 → Nat → uint256) (ask_to_ak nsk_to_nk : uint256 → uint256)
      (crh_ivk : uint256 → uint256 → uint256)
      (check_diversifier : diversifier_t → Bool)
      (ivk_to_pkd : uint256 → diversifier_t → uint256)
      (cand : uint256 → Nat → diversifier_t) (bound : Nat) (s : SaplingSpendingKey),
      (s.default_address prf_expand ask_to_ak nsk_to_nk crh_ivk check_diversifier
          ivk_to_pkd cand bound = none ↔
        ∀ i, i < bound → check_diversifier (cand s.seed i) = false)
      ∧ (∀ i, i < bound → check_diversifier (cand s.seed i) = true →
          (∀ j, j < i → check_diversifier (cand s.seed j) = false) →
          s.default_address prf_expand ask_to_ak nsk_to_nk crh_ivk check_diversifier
              ivk_to_pkd cand bound =
            some ⟨cand s.seed i,
              ivk_to_pkd
                (((s.full_viewing_key prf_expand ask_to_ak nsk_to_nk).in_viewing_key
                  crh_ivk).ivk) (cand s.seed i)⟩) := by
  intro prf_expand ask_to_ak nsk_to_nk crh_ivk check ivk_to_pkd cand bound s
  constructor
  · unfold SaplingSpendingKey.default_address default_diversifier
    cases h : firstValidDiversifier check (cand s.seed) bound 0 with
    | none =>
      simp only
      constructor
      · intro _ i hi
        have hall := (firstValidDiversifier_none_iff check (cand s.seed) bound 0).mp h i hi
        simpa using hall
      · intro _; trivial
    | some d =>
      have hcd : check d = true :=
        firstValidDiversifier_some_check check (cand s.seed) bound 0 d h
      simp only
      constructor
      · intro habs
        unfold SaplingIncomingViewingKey.address at habs
        rw [if_pos hcd] at habs
        exact absurd habs (by simp)
      · intro hall
        have hnone : firstValidDiversifier check (cand s.seed) bound 0 = none :=
          (firstValidDiversifier_none_iff check (cand s.seed) bound 0).mpr
            (fun k hk => by simpa using hall k hk)
        rw [h] at hnone
        exact absurd hnone (by simp)
  · intro i hi hci hmin
    have hfv : firstValidDiversifier check (cand s.seed) bound 0 = some (cand s.seed i) := by
      have hf := firstValidDiversifier_first check (cand s.seed) bound 0 i hi
        (by simpa using hci) (fun j hj => by simpa using hmin j hj)
      simpa using hf
    unfold SaplingSpendingKey.default_address default_diversifier
    rw [hfv]
    simp [SaplingIncomingViewingKey.address, hci]

/-- A concrete stand-in for the two scalar-base-multiplication
collaborators, used to exercise the theorems. -/
def ecStub (x : uint256) : uint256 :=
  x

/-- A concrete stand-in for the hash-to-scalar collaborator, used to
exercise the theorems. -/
def crhStub (a b : uint256) : uint256 :=
  a + b

/-- Witness for C4: with the first-byte-one check and the concrete candidate
sequence, candidate 0 of seed 0 fails and candidate 1 passes, and
`defaultAddress` (bound 3) does not give up at the failing first candidate:
it returns the address of candidate 1. -/
theorem default_address_first_valid_candidate_witness :
    (1 < 3 ∧ checkHeadOne (candSeq 0 1) = true
      ∧ (∀ j, j < 1 → checkHeadOne (candSeq 0 j) = false))
    ∧ SaplingSpendingKey.default_address prfAdd ecStub ecStub crhStub checkHeadOne
        pkdSum candSeq 3 ⟨0⟩ =
      some ⟨candSeq 0 1,
        pkdSum
          ((((⟨0⟩ : SaplingSpendingKey).full_viewing_key prfAdd ecStub ecStub).in_viewing_key
            crhStub).ivk) (candSeq 0 1)⟩ :=
  ⟨⟨by decide, by decide, by decide⟩,
    (default_address_first_valid_candidate prfAdd ecStub ecStub crhStub checkHeadOne
      pkdSum candSeq 3 ⟨0⟩).2 1 (by decide) (by decide) (by decide)⟩

end libzcash
